import Mathlib

/-!
Verification of the FlowGo exit-gate engine (the "deep loop" stop hook).

The embedding mirrors the decision logic of the stop hook: each persisted
signal record (state, test results, git results, validation state, task
backlog, failure log, cost records, lock, markers) is a slot of a `Store`.
A slot can be missing, unreadable (corrupt), or well formed; the evaluator
`evalMain` is the hook's `main`, returning the gate decision together with
the store as mutated by the evaluation.

Time is modelled as integer milliseconds (`Int`), matching JS `Date.now()`
arithmetic. Counters are `Nat`. Presentation-only text (directive prose) is
not modelled; the string lists that feed validity flags are kept because the
decisions depend on them.
-/

namespace FlowGo

/-- Configured thresholds, as in the hook's constant block. -/
def STALE_THRESHOLD_MS : Int := 8 * 60 * 60 * 1000

def DEFAULT_TASK_STALE_HOURS : Nat := 24

def MAX_CONSECUTIVE_FAILURES : Nat := 3

def LOCK_TIMEOUT_MS : Int := 5 * 60 * 1000

def RLM_SUB_CALL_WARNING : Nat := 30

def RLM_SUB_CALL_LIMIT : Nat := 50

/-- A persisted record slot: the file may be absent, unreadable/unparseable,
or well formed. -/
inductive Raw (α : Type) where
  | missing : Raw α
  | corrupt : Raw α
  | good : α → Raw α
deriving DecidableEq, Repr

/-- A successful JSON read: only a well-formed record yields a value. -/
def Raw.toOption {α : Type} : Raw α → Option α
  | .missing => none
  | .corrupt => none
  | .good a => some a

/-- Workflow phase (the `phase` strings of `state.json`). -/
inductive Phase where
  | PLAN | BUILD | REVIEW | FIX | SHIP | COMPLETE | CANCELLED
deriving DecidableEq, Repr

/-- `state.json` content. `iteration`/`maxIterations` absent in JSON behave
as `0` (the hook applies `|| 0` and treats falsy `maxIterations` as unset). -/
structure SessionState where
  phase : Phase
  iteration : Nat
  maxIterations : Nat
  complete : Bool
  lastActivity : Int
deriving DecidableEq, Repr

/-- One category of `test-results.json` (`{ran, passed}`). -/
structure CatResult where
  ran : Bool
  passed : Bool
deriving DecidableEq, Repr

/-- `test-results.json`: the four categories (each possibly absent) and the
top-level `allPassed` flag (absent behaves as `false`). -/
structure TestResults where
  tests : Option CatResult
  types : Option CatResult
  lint : Option CatResult
  build : Option CatResult
  allPassed : Bool
deriving DecidableEq, Repr

structure RepoInfo where
  isGitRepo : Bool
  hasGhCli : Bool
deriving DecidableEq, Repr

structure PrInfo where
  created : Bool
deriving DecidableEq, Repr

structure CiInfo where
  checked : Bool
  passed : Bool
deriving DecidableEq, Repr

structure MergeInfo where
  merged : Bool
deriving DecidableEq, Repr

/-- Enforcement flags; each is tri-state in JSON (`undefined`/`true`/`false`)
and the hook tests `!== false`. -/
structure Enforcement where
  requirePR : Option Bool
  requireCIPass : Option Bool
  requireMerge : Option Bool
deriving DecidableEq, Repr

/-- `git-results.json` content. -/
structure GitResults where
  repository : Option RepoInfo
  pr : Option PrInfo
  ci : Option CiInfo
  merge : Option MergeInfo
  enforcement : Option Enforcement
deriving DecidableEq, Repr

/-- One entry of `validation-state.json`'s `errors` list. -/
structure VError where
  file : Option String
  message : String
  line : Option Nat
  timestamp : Option Int
deriving DecidableEq, Repr

/-- `validation-state.json` content. -/
structure ValidationState where
  errors : List VError
  filesValidated : Nat
deriving DecidableEq, Repr

/-- Task status strings of `persistent-tasks.json`. -/
inductive TaskStatus where
  | pending | in_progress | completed | blocked
deriving DecidableEq, Repr

/-- One backlog task. -/
structure PTask where
  id : String
  content : String
  status : TaskStatus
  createdAt : Int
deriving DecidableEq, Repr

structure TasksConfig where
  staleThresholdHours : Option Nat
deriving DecidableEq, Repr

/-- `persistent-tasks.json` content. -/
structure TasksData where
  config : Option TasksConfig
  tasks : List PTask
deriving DecidableEq, Repr

/-- One entry of a task's failure history. -/
structure FailEntry where
  error : String
  timestamp : Int
deriving DecidableEq, Repr

/-- Per-task record in `failures.json`. -/
structure FailureRecord where
  count : Nat
  errors : List FailEntry
  lastFailure : Option Int
deriving DecidableEq, Repr

/-- `failures.json`: a task-id-keyed object, modelled as an association
list. -/
def Failures : Type := List (String × FailureRecord)

instance : DecidableEq Failures := by
  unfold Failures
  infer_instance

instance : Repr Failures := by
  unfold Failures
  infer_instance

/-- The `NEEDS_USER` escalation marker payload. -/
structure Escalation where
  taskId : String
  failures : Nat
  errors : List FailEntry
  createdAt : Int
deriving DecidableEq, Repr

/-- `rlm-context.json`: the current burst's cost record. Absent `sub_calls`
behaves as `0`. -/
structure RlmContext where
  sub_calls : Nat
  cost_estimate : Option String
deriving DecidableEq, Repr

/-- One entry of the cumulative cost history. -/
structure SessionEntry where
  timestamp : Int
  sub_calls : Nat
  cost_estimate : String
deriving DecidableEq, Repr

/-- `rlm-costs.json`: cumulative cost bookkeeping. -/
structure CostTotals where
  total_sub_calls : Nat
  sessions : List SessionEntry
  last_updated : Option Int
deriving DecidableEq, Repr

/-- `agent.lock` content. -/
structure LockData where
  agentId : String
  acquiredAt : Int
deriving DecidableEq, Repr

/-- The persisted signal store: one slot per file the hook touches.
`stateMtime` is the modification time of `state.json` (what `isStateStale`
actually inspects via `statSync`); it is meaningful only when the state slot
is not `missing`. The three force markers are presence flags. -/
structure Store where
  state : Raw SessionState
  stateMtime : Int
  forceExit : Bool
  forceComplete : Bool
  ralphHandoff : Bool
  escalation : Raw Escalation
  rlmContext : Raw RlmContext
  rlmCosts : Raw CostTotals
  validationState : Raw ValidationState
  testResults : Raw TestResults
  gitResults : Raw GitResults
  tasks : Raw TasksData
  failures : Raw Failures
  lock : Raw LockData
deriving DecidableEq, Repr

/-- A store with every record absent. -/
def emptyStore : Store where
  state := .missing
  stateMtime := 0
  forceExit := false
  forceComplete := false
  ralphHandoff := false
  escalation := .missing
  rlmContext := .missing
  rlmCosts := .missing
  validationState := .missing
  testResults := .missing
  gitResults := .missing
  tasks := .missing
  failures := .missing
  lock := .missing

/-- The gate's decision, by blocking reason. -/
inductive Decision where
  | allow
  | escalate (taskId : String)
  | blockCostLimit
  | blockIterationLimit
  | blockContinuePhase (phase : Phase)
  | blockValidationErrors
  | blockTestsUnverified
  | blockGitIncomplete
  | blockTasksRemaining (taskId : String)
deriving DecidableEq, Repr

/-- Process exit code of a decision: 0 allows the session to end, 2 blocks. -/
def exitCode : Decision → Nat
  | .allow => 0
  | _ => 2

/-- `checkIterationLimit` (Edge Case 1): falsy `maxIterations` never reports
blocked; otherwise blocked iff `iteration >= maxIterations`. -/
def checkIterationLimit (s : SessionState) : Bool :=
  if s.maxIterations = 0 then false
  else decide (s.iteration ≥ s.maxIterations)

/-- `isStateStale` (Edge Case 2): a missing state file reads as stale
(`statSync` throws); otherwise stale iff the state file's mtime is more than
8 hours old. -/
def isStateStale (now : Int) (st : Store) : Bool :=
  match st.state with
  | .missing => true
  | _ => decide (now - st.stateMtime > STALE_THRESHOLD_MS)

/-- Result of `verifyTestResults`. -/
structure Verify where
  valid : Bool
  missingItems : List String
  failedItems : List String
deriving DecidableEq, Repr

/-- Per-category classification inside `verifyTestResults`: returns the
`missing` entry or the `failed` entry this category contributes, if any. -/
def catCheck (name : String) (r : Option CatResult) : Option String × Option String :=
  match r with
  | none => (some (name ++ ": no results"), none)
  | some c =>
    if c.ran = false then (some (name ++ ": not run"), none)
    else if c.passed = false then (none, some (name ++ ": failed"))
    else (none, none)

/-- `verifyTestResults` (Edge Case 3): a missing or unreadable record is
invalid (fail closed); a well-formed record is valid only when all four
categories ran and passed and nothing contradicts `allPassed`. -/
def verifyTestResults (tr : Raw TestResults) : Verify :=
  match tr with
  | .missing => { valid := false, missingItems := ["test-results.json not found"], failedItems := [] }
  | .corrupt => { valid := false, missingItems := ["Cannot read test results"], failedItems := [] }
  | .good r =>
    let cats := [("tests", r.tests), ("types", r.types), ("lint", r.lint), ("build", r.build)]
    let checks := cats.map (fun p => catCheck p.1 p.2)
    let missing := checks.filterMap Prod.fst
    let failed := checks.filterMap Prod.snd
    let failed :=
      if r.allPassed = false ∧ missing.isEmpty ∧ failed.isEmpty then
        failed ++ ["allPassed is false"]
      else failed
    { valid := missing.isEmpty && failed.isEmpty, missingItems := missing, failedItems := failed }

/-- Result of `verifyGitResults`. -/
structure GitVerify where
  valid : Bool
  skip : Bool
  missingItems : List String
  failedItems : List String
deriving DecidableEq, Repr

/-- An enforcement flag is active unless it is explicitly `false`
(the hook tests `!== false`). -/
def notDisabled : Option Bool → Bool
  | some false => false
  | _ => true

/-- `verifyGitResults` (Edge Case 7): missing or unreadable records skip git
verification (fail open), as does a record reporting no git repo or no gh
CLI; otherwise the enforced PR / CI / merge requirements are checked. -/
def verifyGitResults (g : Raw GitResults) : GitVerify :=
  match g with
  | .missing => { valid := true, skip := true, missingItems := [], failedItems := [] }
  | .corrupt => { valid := true, skip := true, missingItems := [], failedItems := [] }
  | .good r =>
    if (r.repository.map RepoInfo.isGitRepo).getD false = false then
      { valid := true, skip := true, missingItems := [], failedItems := [] }
    else if (r.repository.map RepoInfo.hasGhCli).getD false = false then
      { valid := true, skip := true, missingItems := [], failedItems := [] }
    else
      let en := r.enforcement.getD { requirePR := none, requireCIPass := none, requireMerge := none }
      let m1 : List String :=
        if notDisabled en.requirePR ∧ (r.pr.map PrInfo.created).getD false = false then
          ["PR not created"]
        else []
      let mf : List String × List String :=
        if notDisabled en.requireCIPass then
          if (r.ci.map CiInfo.checked).getD false = false then (["CI not checked"], [])
          else if (r.ci.map CiInfo.passed).getD false = false then ([], ["CI failed"])
          else ([], [])
        else ([], [])
      let m3 : List String :=
        if notDisabled en.requireMerge ∧ (r.merge.map MergeInfo.merged).getD false = false then
          ["PR not merged"]
        else []
      let missing := m1 ++ mf.1 ++ m3
      { valid := missing.isEmpty && mf.2.isEmpty, skip := false,
        missingItems := missing, failedItems := mf.2 }

/-- A validation error counts as recent when its timestamp parses and lies
within the last hour (`new Date(e.timestamp).getTime() > Date.now() - 1h`;
an absent timestamp yields `NaN`, which never compares greater). -/
def isRecentError (now : Int) (e : VError) : Bool :=
  match e.timestamp with
  | some t => decide (now - 3600000 < t)
  | none => false

/-- `checkValidationErrors` (Edge Case 12), reduced to its `ok` flag: a
missing or unreadable record is ok (fail open); a well-formed record is ok
iff it has no error entry from the last hour. -/
def checkValidationErrors (now : Int) (v : Raw ValidationState) : Bool :=
  match v with
  | .good s => (s.errors.filter (isRecentError now)).isEmpty
  | _ => true

/-- The effective task-staleness window: `config.staleThresholdHours || 24`,
in milliseconds (a `0` setting is falsy in JS and falls back to 24). -/
def taskStaleMs (cfg : Option TasksConfig) : Int :=
  let h : Nat :=
    match cfg with
    | some c =>
      match c.staleThresholdHours with
      | some n => if n = 0 then DEFAULT_TASK_STALE_HOURS else n
      | none => DEFAULT_TASK_STALE_HOURS
    | none => DEFAULT_TASK_STALE_HOURS
  (h : Int) * 60 * 60 * 1000

/-- `getPendingTasks` (Edge Case 4): the non-terminal tasks created within
the staleness window, in backlog order. -/
def getPendingTasks (now : Int) (td : Option TasksData) : List PTask :=
  match td with
  | none => []
  | some d =>
    d.tasks.filter (fun t =>
      decide (t.status ≠ .completed ∧ t.status ≠ .blocked ∧
        now - t.createdAt ≤ taskStaleMs d.config))

/-- The task the gate works on: the first `in_progress` pending task if one
exists, otherwise the first pending task. -/
def selectCurrent (pending : List PTask) : Option PTask :=
  match pending with
  | [] => none
  | c :: _ => some ((pending.find? (fun t => t.status = TaskStatus.in_progress)).getD c)

/-- The last `n` elements of a list (JS `slice(-n)`). -/
def takeLast {α : Type} (n : Nat) (l : List α) : List α :=
  l.drop (l.length - n)

/-- `checkUserEscalation` (Edge Case 10): when the failure log is readable
and the task has at least `MAX_CONSECUTIVE_FAILURES` recorded failures,
return the escalation record the hook writes to `NEEDS_USER`; otherwise no
escalation (missing or unreadable logs fail open). -/
def checkUserEscalation (now : Int) (fl : Raw Failures) (taskId : String) : Option Escalation :=
  match fl with
  | .good l =>
    match l.lookup taskId with
    | some fr =>
      if fr.count ≥ MAX_CONSECUTIVE_FAILURES then
        some { taskId := taskId, failures := fr.count,
               errors := takeLast 3 fr.errors, createdAt := now }
      else none
    | none => none
  | _ => none

/-- Outcome flags of `checkRlmCosts`. -/
structure RlmCheck where
  blocked : Bool
  warning : Bool
deriving DecidableEq, Repr

/-- `checkRlmCosts` (Edge Case 11): with a well-formed context record, the
current burst is appended to the cumulative totals (history capped at the
last 10 bursts) and only the current burst is judged against the warning
(30) and hard (50) thresholds. A missing or unreadable context — or an
unreadable totals record, which aborts the whole update — fails open. -/
def checkRlmCosts (now : Int) (ctx : Raw RlmContext) (costs : Raw CostTotals) :
    RlmCheck × Raw CostTotals :=
  match ctx with
  | .missing => ({ blocked := false, warning := false }, costs)
  | .corrupt => ({ blocked := false, warning := false }, costs)
  | .good c =>
    match costs with
    | .corrupt => ({ blocked := false, warning := false }, costs)
    | base =>
      let t : CostTotals :=
        match base with
        | .good t => t
        | _ => { total_sub_calls := 0, sessions := [], last_updated := none }
      let entry : SessionEntry :=
        { timestamp := now, sub_calls := c.sub_calls,
          cost_estimate := c.cost_estimate.getD "unknown" }
      let sessions := t.sessions ++ [entry]
      let sessions := if sessions.length > 10 then takeLast 10 sessions else sessions
      let newCosts : CostTotals :=
        { total_sub_calls := t.total_sub_calls + c.sub_calls,
          sessions := sessions, last_updated := some now }
      let res : RlmCheck :=
        if c.sub_calls ≥ RLM_SUB_CALL_LIMIT then { blocked := true, warning := false }
        else if c.sub_calls ≥ RLM_SUB_CALL_WARNING then { blocked := false, warning := true }
        else { blocked := false, warning := false }
      (res, .good newCosts)

/-- Result of `acquireLock`. -/
structure LockResult where
  acquired : Bool
  holder : Option String
  age : Option Int
deriving DecidableEq, Repr

/-- `acquireLock` (Edge Case 8): an existing lock younger than the timeout
wins (not acquired, holder and age reported); otherwise the caller's lock is
written. An unreadable lock record fails open: acquired with no write. -/
def acquireLock (now : Int) (agentId : String) (lock : Raw LockData) :
    LockResult × Raw LockData :=
  match lock with
  | .good l =>
    let age := now - l.acquiredAt
    if age < LOCK_TIMEOUT_MS then
      ({ acquired := false, holder := some l.agentId, age := some age }, lock)
    else
      ({ acquired := true, holder := none, age := none },
       .good { agentId := agentId, acquiredAt := now })
  | .missing =>
    ({ acquired := true, holder := none, age := none },
     .good { agentId := agentId, acquiredAt := now })
  | .corrupt => ({ acquired := true, holder := none, age := none }, .corrupt)

/-- `releaseLock`: the lock is deleted only when it is readable and held by
the releasing agent. -/
def releaseLock (agentId : String) (lock : Raw LockData) : Raw LockData :=
  match lock with
  | .good l => if l.agentId = agentId then .missing else .good l
  | other => other

/-- Whether `getPhasePrompt` yields a directive for this phase (`COMPLETE`
maps to `null`, `CANCELLED` is not a key). -/
def hasPhasePrompt : Phase → Bool
  | .PLAN | .BUILD | .REVIEW | .FIX | .SHIP => true
  | .COMPLETE | .CANCELLED => false

/-- Writing `state.json`: the slot becomes the new record and the file's
mtime becomes the current time. -/
def writeState (st : Store) (now : Int) (s : SessionState) : Store :=
  { st with state := .good s, stateMtime := now }

/-- The evaluation outcome: the decision, the store after all writes and
deletions, and whether the advisory cost warning was emitted. -/
structure EvalOut where
  decision : Decision
  store : Store
  costWarning : Bool
deriving DecidableEq, Repr

/-- Backlog stage of `main` (Edge Cases 4 and 10): pick the current pending
task; escalate (writing the marker) once its failure count reaches the
threshold, otherwise block naming it; with no pending task, release the lock
and allow. -/
def evalTasks (now : Int) (pid : String) (warn : Bool) (st : Store) : EvalOut :=
  match selectCurrent (getPendingTasks now st.tasks.toOption) with
  | none =>
    { decision := .allow, store := { st with lock := releaseLock pid st.lock },
      costWarning := warn }
  | some current =>
    match checkUserEscalation now st.failures current.id with
    | some esc =>
      { decision := .escalate current.id, store := { st with escalation := .good esc },
        costWarning := warn }
    | none =>
      { decision := .blockTasksRemaining current.id, store := st, costWarning := warn }

/-- Completion-verification stage of `main` (Edge Cases 3, 7, 12): for a
session marked complete (or in SHIP/COMPLETE), check validation errors, then
test results, then git results, reverting the persisted phase on the first
failure; otherwise fall through to the backlog stage. -/
def evalCompletion (now : Int) (pid : String) (warn : Bool) (st : Store)
    (s : SessionState) : EvalOut :=
  if s.complete = true ∨ s.phase = .COMPLETE ∨ s.phase = .SHIP then
    if checkValidationErrors now st.validationState = false then
      { decision := .blockValidationErrors,
        store := writeState st now { s with phase := .FIX, complete := false },
        costWarning := warn }
    else if (verifyTestResults st.testResults).valid = false then
      { decision := .blockTestsUnverified,
        store := writeState st now { s with phase := .REVIEW, complete := false },
        costWarning := warn }
    else
      let gv := verifyGitResults st.gitResults
      if gv.skip = false ∧ gv.valid = false then
        { decision := .blockGitIncomplete,
          store := writeState st now { s with phase := .REVIEW, complete := false },
          costWarning := warn }
      else evalTasks now pid warn st
  else evalTasks now pid warn st

/-- Deep-loop stage of `main` (Edge Cases 1 and 2): for a readable,
incomplete, non-SHIP/COMPLETE state, a stale state falls through (exit will
be allowed unless a later stage blocks); otherwise the iteration limit is
enforced and, below it, the iteration counter is incremented, the state
persisted, and the phase directive re-emitted. -/
def evalStateBlock (now : Int) (pid : String) (warn : Bool) (st : Store) : EvalOut :=
  match st.state.toOption with
  | none => evalTasks now pid warn st
  | some s =>
    if s.complete = false ∧ s.phase ≠ .COMPLETE ∧ s.phase ≠ .SHIP then
      if isStateStale now st = true then
        evalCompletion now pid warn st s
      else if checkIterationLimit s = true then
        { decision := .blockIterationLimit, store := st, costWarning := warn }
      else
        let s2 : SessionState := { s with iteration := s.iteration + 1, lastActivity := now }
        let st2 := writeState st now s2
        if hasPhasePrompt s2.phase = true then
          { decision := .blockContinuePhase s2.phase, store := st2, costWarning := warn }
        else evalCompletion now pid warn st2 s2
    else evalCompletion now pid warn st s

/-- `main`: force markers first (each consumed, one-shot), then a pending
readable escalation marker, then the cost guard, then the deep-loop,
completion-verification and backlog stages. -/
def evalMain (now : Int) (pid : String) (st : Store) : EvalOut :=
  if st.forceExit = true then
    { decision := .allow, store := { st with forceExit := false }, costWarning := false }
  else if st.forceComplete = true then
    { decision := .allow, store := { st with forceComplete := false }, costWarning := false }
  else if st.ralphHandoff = true then
    { decision := .allow, store := { st with ralphHandoff := false }, costWarning := false }
  else
    match st.escalation with
    | .good esc => { decision := .escalate esc.taskId, store := st, costWarning := false }
    | _ =>
      let rc := checkRlmCosts now st.rlmContext st.rlmCosts
      let st2 := { st with rlmCosts := rc.2 }
      if rc.1.blocked = true then
        { decision := .blockCostLimit, store := st2, costWarning := rc.1.warning }
      else evalStateBlock now pid rc.1.warning st2

/-- Iterated evaluation: the store produced by running the hook `n` times in
a row (the executor changing nothing in between). -/
def evalSteps (now : Int) (pid : String) : Nat → Store → Store
  | 0, st => st
  | n + 1, st => (evalMain now pid (evalSteps now pid n st)).store

/-- Decision view of the backlog stage (used to relate evaluations that
differ only in one record slot). -/
def tasksDecision (now : Int) (tasks : Raw TasksData) (fl : Raw Failures) : Decision :=
  match selectCurrent (getPendingTasks now tasks.toOption) with
  | none => .allow
  | some c =>
    match checkUserEscalation now fl c.id with
    | some _ => .escalate c.id
    | none => .blockTasksRemaining c.id

/-- Decision view of the completion-verification stage. -/
def completionDecision (now : Int) (v : Raw ValidationState) (tr : Raw TestResults)
    (g : Raw GitResults) (tasks : Raw TasksData) (fl : Raw Failures)
    (s : SessionState) : Decision :=
  if s.complete = true ∨ s.phase = .COMPLETE ∨ s.phase = .SHIP then
    if checkValidationErrors now v = false then .blockValidationErrors
    else if (verifyTestResults tr).valid = false then .blockTestsUnverified
    else
      let gv := verifyGitResults g
      if gv.skip = false ∧ gv.valid = false then .blockGitIncomplete
      else tasksDecision now tasks fl
  else tasksDecision now tasks fl

/-- Staleness as a function of the state slot and its mtime. -/
def staleOf (stSlot : Raw SessionState) (mtime now : Int) : Bool :=
  match stSlot with
  | .missing => true
  | _ => decide (now - mtime > STALE_THRESHOLD_MS)

/-- Decision view of the deep-loop stage. -/
def stateDecision (now : Int) (stSlot : Raw SessionState) (mtime : Int)
    (v : Raw ValidationState) (tr : Raw TestResults) (g : Raw GitResults)
    (tasks : Raw TasksData) (fl : Raw Failures) : Decision :=
  match stSlot.toOption with
  | none => tasksDecision now tasks fl
  | some s =>
    if s.complete = false ∧ s.phase ≠ .COMPLETE ∧ s.phase ≠ .SHIP then
      if staleOf stSlot mtime now = true then
        completionDecision now v tr g tasks fl s
      else if checkIterationLimit s = true then .blockIterationLimit
      else
        let s2 : SessionState := { s with iteration := s.iteration + 1, lastActivity := now }
        if hasPhasePrompt s2.phase = true then .blockContinuePhase s2.phase
        else completionDecision now v tr g tasks fl s2
    else completionDecision now v tr g tasks fl s

/-- Decision view of the whole gate. -/
def gateDecision (now : Int) (st : Store) : Decision :=
  if st.forceExit = true then .allow
  else if st.forceComplete = true then .allow
  else if st.ralphHandoff = true then .allow
  else
    match st.escalation with
    | .good esc => .escalate esc.taskId
    | _ =>
      let rc := checkRlmCosts now st.rlmContext st.rlmCosts
      if rc.1.blocked = true then .blockCostLimit
      else stateDecision now st.state st.stateMtime st.validationState st.testResults
        st.gitResults st.tasks st.failures

/-- A fully passing test-results record. -/
def trAllPass : TestResults :=
  { tests := some ⟨true, true⟩, types := some ⟨true, true⟩,
    lint := some ⟨true, true⟩, build := some ⟨true, true⟩, allPassed := true }

/-- Concrete store: a BUILD session at its iteration limit whose state file
is 9 hours old, with no other record present. -/
def cxStaleStore : Store :=
  { emptyStore with
    state := .good { phase := .BUILD, iteration := 10, maxIterations := 10,
                     complete := false, lastActivity := 99967600000 }
    stateMtime := 99967600000 }

/-- Concrete store: a completed SHIP session with one validation error
recorded a few seconds ago and fully passing test results. -/
def cxShipStore : Store :=
  { emptyStore with
    state := .good { phase := .SHIP, iteration := 3, maxIterations := 10,
                     complete := true, lastActivity := 99999999000 }
    stateMtime := 99999999000
    validationState := .good
      { errors := [{ file := some "a.json", message := "invalid JSON",
                     line := none, timestamp := some 99999999000 }]
        filesValidated := 1 }
    testResults := .good trAllPass }

/-- Concrete store: a completed SHIP session whose only validation error was
recorded two hours ago. -/
def cxOldErrStore : Store :=
  { emptyStore with
    state := .good { phase := .SHIP, iteration := 3, maxIterations := 10,
                     complete := true, lastActivity := 99999999000 }
    stateMtime := 99999999000
    validationState := .good
      { errors := [{ file := some "a.json", message := "invalid JSON",
                     line := none, timestamp := some 99992800000 }]
        filesValidated := 1 } }

/-- Concrete store: a backlog whose earliest pending task is `t1` while a
later task `t2` is in progress, with two failures logged against `t1`. -/
def cxBacklogStore : Store :=
  { emptyStore with
    tasks := .good
      { config := none
        tasks := [{ id := "t1", content := "first task", status := .pending,
                    createdAt := 99999990000 },
                  { id := "t2", content := "second task", status := .in_progress,
                    createdAt := 99999995000 }] }
    failures := .good [("t1", { count := 2, errors := [], lastFailure := none })] }

/-- Concrete store: an incomplete CANCELLED-phase session with falsy
`maxIterations`. -/
def cxCancelledStore : Store :=
  { emptyStore with
    state := .good { phase := .CANCELLED, iteration := 0, maxIterations := 0,
                     complete := false, lastActivity := 99999999000 }
    stateMtime := 99999999000 }

/-- Concrete store with every blocking signal at once: failing tests, a
fresh validation error, a pending task, an escalation marker, a cost record
over the hard limit — and the force-exit marker. -/
def nastyStore : Store :=
  { emptyStore with
    forceExit := true
    escalation := .good { taskId := "t9", failures := 5, errors := [], createdAt := 0 }
    state := .good { phase := .SHIP, iteration := 3, maxIterations := 10,
                     complete := true, lastActivity := 99999999000 }
    stateMtime := 99999999000
    testResults := .good
      { tests := some ⟨true, false⟩, types := some ⟨true, true⟩,
        lint := some ⟨true, true⟩, build := some ⟨true, true⟩, allPassed := false }
    validationState := .good
      { errors := [{ file := some "a.json", message := "invalid JSON",
                     line := none, timestamp := some 99999999000 }]
        filesValidated := 1 }
    tasks := .good
      { config := none
        tasks := [{ id := "t1", content := "first task", status := .pending,
                    createdAt := 99999990000 }] }
    rlmContext := .good { sub_calls := 60, cost_estimate := none } }

/-! Helper lemmas relating the evaluator to its decision view. -/

theorem evalTasks_decision (now : Int) (pid : String) (w : Bool) (st : Store) :
    (evalTasks now pid w st).decision = tasksDecision now st.tasks st.failures := by
  cases hsel : selectCurrent (getPendingTasks now st.tasks.toOption) with
  | none => simp only [evalTasks, tasksDecision, hsel]
  | some c =>
    cases hesc : checkUserEscalation now st.failures c.id with
    | none => simp only [evalTasks, tasksDecision, hsel, hesc]
    | some e => simp only [evalTasks, tasksDecision, hsel, hesc]

theorem evalCompletion_decision (now : Int) (pid : String) (w : Bool) (st : Store)
    (s : SessionState) :
    (evalCompletion now pid w st s).decision =
      completionDecision now st.validationState st.testResults st.gitResults
        st.tasks st.failures s := by
  simp only [evalCompletion, completionDecision]
  split
  · split
    · rfl
    · split
      · rfl
      · split
        · rfl
        · exact evalTasks_decision now pid w st
  · exact evalTasks_decision now pid w st

theorem staleOf_eq (now : Int) (st : Store) :
    isStateStale now st = staleOf st.state st.stateMtime now := by
  unfold isStateStale staleOf
  cases st.state <;> rfl

theorem evalStateBlock_decision (now : Int) (pid : String) (w : Bool) (st : Store) :
    (evalStateBlock now pid w st).decision =
      stateDecision now st.state st.stateMtime st.validationState st.testResults
        st.gitResults st.tasks st.failures := by
  cases hopt : st.state.toOption with
  | none =>
    simp only [evalStateBlock, stateDecision, hopt]
    exact evalTasks_decision now pid w st
  | some s =>
    simp only [evalStateBlock, stateDecision, hopt]
    rw [← staleOf_eq now st]
    split
    · split
      · exact evalCompletion_decision now pid w st s
      · split
        · rfl
        · split
          · rfl
          · exact evalCompletion_decision now pid w
              (writeState st now { s with iteration := s.iteration + 1, lastActivity := now })
              { s with iteration := s.iteration + 1, lastActivity := now }
    · exact evalCompletion_decision now pid w st s

theorem evalMain_decision (now : Int) (pid : String) (st : Store) :
    (evalMain now pid st).decision = gateDecision now st := by
  simp only [evalMain, gateDecision]
  split
  · rfl
  · split
    · rfl
    · split
      · rfl
      · cases hesc : st.escalation with
        | good e => rfl
        | missing =>
          by_cases hb : (checkRlmCosts now st.rlmContext st.rlmCosts).1.blocked = true
          · simp only [if_pos hb]
          · simp only [if_neg hb]
            exact evalStateBlock_decision now pid _ _
        | corrupt =>
          by_cases hb : (checkRlmCosts now st.rlmContext st.rlmCosts).1.blocked = true
          · simp only [if_pos hb]
          · simp only [if_neg hb]
            exact evalStateBlock_decision now pid _ _

/-- Helper: one continue-phase step of the gate on a store holding only an
active, under-limit session state. -/
theorem continue_step (now : Int) (pid : String) (s : SessionState) (mtime : Int)
    (hc : s.complete = false) (h1 : s.phase ≠ .COMPLETE) (h2 : s.phase ≠ .SHIP)
    (hlim : checkIterationLimit s = false)
    (hprompt : hasPhasePrompt s.phase = true)
    (hstale : now - mtime ≤ STALE_THRESHOLD_MS) :
    evalMain now pid { emptyStore with state := .good s, stateMtime := mtime } =
      { decision := .blockContinuePhase s.phase,
        store := { emptyStore with
          state := .good { s with iteration := s.iteration + 1, lastActivity := now },
          stateMtime := now },
        costWarning := false } := by
  simp [evalMain, emptyStore, checkRlmCosts, evalStateBlock, Raw.toOption, hc, h1, h2,
    isStateStale, hlim, hprompt, writeState]
  omega

/-- Helper: with falsy `maxIterations`, repeated evaluation keeps adding one
to the persisted iteration counter. -/
theorem continue_iterates (now : Int) (pid : String) (s : SessionState) (mtime : Int)
    (hc : s.complete = false) (h1 : s.phase ≠ .COMPLETE) (h2 : s.phase ≠ .SHIP)
    (hmax : s.maxIterations = 0) (hp : hasPhasePrompt s.phase = true)
    (hstale : now - mtime ≤ STALE_THRESHOLD_MS) :
    ∀ n : Nat,
    evalSteps now pid (n + 1) { emptyStore with state := .good s, stateMtime := mtime } =
      { emptyStore with
        state := .good { s with iteration := s.iteration + (n + 1), lastActivity := now },
        stateMtime := now } := by
  have hsucc : ∀ (m : Nat) (st : Store),
      evalSteps now pid (m + 1) st = (evalMain now pid (evalSteps now pid m st)).store :=
    fun m st => rfl
  have hzero : ∀ st : Store, evalSteps now pid 0 st = st := fun st => rfl
  intro n
  induction n with
  | zero =>
    rw [hsucc, hzero]
    rw [continue_step now pid s mtime hc h1 h2 (by simp [checkIterationLimit, hmax]) hp hstale]
  | succ n ih =>
    rw [hsucc, ih]
    rw [continue_step now pid
      { s with iteration := s.iteration + (n + 1), lastActivity := now } now
      hc h1 h2 (by simp [checkIterationLimit, hmax]) hp (by norm_num [STALE_THRESHOLD_MS])]
    simp
    omega

/-! Claim C1 -/

/-- Claim C1, counterexample: a persisted state at its iteration limit
(`iteration = maxIterations = 10`), `complete = false`, with no escalation
or override marker, whose state file is 9 hours old, is let through with
exit code 0 — staleness pre-empts the iteration-limit block, so the claim
as stated (every such state yields BLOCK(IterationLimit)) is false. -/
theorem iterationLimit_stale_allows :
    (evalMain 100000000000 "w" cxStaleStore).decision = .allow ∧
    (evalMain 100000000000 "w" cxStaleStore).decision ≠ .blockIterationLimit ∧
    exitCode (evalMain 100000000000 "w" cxStaleStore).decision = 0 ∧
    cxStaleStore.escalation = .missing ∧ cxStaleStore.forceExit = false ∧
    cxStaleStore.forceComplete = false := by
  refine ⟨?_, ?_, ?_, ?_, ?_, ?_⟩ <;> decide

/-- Claim C1, amended: for a persisted, non-stale session state with
`complete = false`, phase outside SHIP/COMPLETE, a nonzero `maxIterations`
and `iteration ≥ maxIterations`, with no markers and no other record
present, one evaluation returns BLOCK(IterationLimit) with exit code 2 and
leaves the store — in particular the iteration counter — unchanged. -/
theorem iterationLimit_blocks (now : Int) (pid : String) (s : SessionState) (mtime : Int)
    (hc : s.complete = false) (h1 : s.phase ≠ .COMPLETE) (h2 : s.phase ≠ .SHIP)
    (hmax : s.maxIterations ≠ 0) (hiter : s.iteration ≥ s.maxIterations)
    (hstale : now - mtime ≤ STALE_THRESHOLD_MS) :
    evalMain now pid { emptyStore with state := .good s, stateMtime := mtime } =
      { decision := .blockIterationLimit,
        store := { emptyStore with state := .good s, stateMtime := mtime },
        costWarning := false } ∧
    exitCode Decision.blockIterationLimit = 2 := by
  constructor
  · simp [evalMain, emptyStore, checkRlmCosts, evalStateBlock, Raw.toOption, hc, h1, h2,
      isStateStale, checkIterationLimit, hmax, hiter, exitCode]
    omega
  · rfl

/-- Claim C1, witness: the amended theorem applied to a fresh BUILD state at
iteration 10 of 10. -/
theorem iterationLimit_blocks_witness :
    evalMain 100000000000 "w"
      { emptyStore with
        state := .good { phase := .BUILD, iteration := 10, maxIterations := 10,
                         complete := false, lastActivity := 99999999000 }
        stateMtime := 99999999000 } =
      { decision := .blockIterationLimit,
        store := { emptyStore with
          state := .good { phase := .BUILD, iteration := 10, maxIterations := 10,
                           complete := false, lastActivity := 99999999000 }
          stateMtime := 99999999000 },
        costWarning := false } ∧
    exitCode Decision.blockIterationLimit = 2 :=
  iterationLimit_blocks 100000000000 "w"
    { phase := .BUILD, iteration := 10, maxIterations := 10,
      complete := false, lastActivity := 99999999000 } 99999999000
    rfl (by decide) (by decide) (by decide) (by decide) (by decide)

/-! Claim C2 -/

/-- Claim C2, counterexample: corrupting the validation record makes the
gate strictly less blocking than the well-formed record: the same completed
SHIP session is blocked with the readable record and allowed with the
unreadable one, so a read failure does degrade toward silent allowance. -/
theorem malformedSignal_less_blocking :
    (evalMain 100000000000 "w" cxShipStore).decision = .blockValidationErrors ∧
    (evalMain 100000000000 "w" { cxShipStore with validationState := .corrupt }).decision =
      .allow := by
  constructor <;> decide

/-- Claim C2, amended: an unreadable record is caught inside the evaluator
and mapped to the same default as a missing record, so for each of the eight
signal records the gate decision with a corrupt record equals the decision
with a missing record; however the shared default fails open for every
record except test results, so (per the counterexample) a read failure can
be strictly less blocking than the well-formed case. -/
theorem malformedSignal_same_default (now : Int) (pid : String) (st : Store) :
    ((evalMain now pid { st with state := .corrupt }).decision =
      (evalMain now pid { st with state := .missing }).decision) ∧
    ((evalMain now pid { st with testResults := .corrupt }).decision =
      (evalMain now pid { st with testResults := .missing }).decision) ∧
    ((evalMain now pid { st with gitResults := .corrupt }).decision =
      (evalMain now pid { st with gitResults := .missing }).decision) ∧
    ((evalMain now pid { st with validationState := .corrupt }).decision =
      (evalMain now pid { st with validationState := .missing }).decision) ∧
    ((evalMain now pid { st with tasks := .corrupt }).decision =
      (evalMain now pid { st with tasks := .missing }).decision) ∧
    ((evalMain now pid { st with failures := .corrupt }).decision =
      (evalMain now pid { st with failures := .missing }).decision) ∧
    ((evalMain now pid { st with rlmContext := .corrupt }).decision =
      (evalMain now pid { st with rlmContext := .missing }).decision) ∧
    ((evalMain now pid { st with lock := .corrupt }).decision =
      (evalMain now pid { st with lock := .missing }).decision) := by
  refine ⟨?_, ?_, ?_, ?_, ?_, ?_, ?_, ?_⟩ <;>
    (rw [evalMain_decision, evalMain_decision]; rfl)

/-! Claim C3 -/

/-- Claim C3, counterexample: a completed SHIP session whose only
validation-state error entry is two hours old is not blocked with
BLOCK(ValidationErrors) and is not sent to FIX: the evaluator only counts
errors from the last hour, so this run fails test verification instead and
reverts to REVIEW. -/
theorem validationErrors_old_entry_ignored :
    (evalMain 100000000000 "w" cxOldErrStore).decision = .blockTestsUnverified ∧
    (evalMain 100000000000 "w" cxOldErrStore).decision ≠ .blockValidationErrors ∧
    (evalMain 100000000000 "w" cxOldErrStore).store.state =
      .good { phase := .REVIEW, iteration := 3, maxIterations := 10,
              complete := false, lastActivity := 99999999000 } := by
  refine ⟨?_, ?_, ?_⟩ <;> decide

/-- Claim C3, amended: for a state with `complete = true` and `phase = SHIP`
and a ValidationState containing at least one error entry recorded within
the last hour (no override or escalation marker, no other record present),
the evaluator returns BLOCK(ValidationErrors) and rewrites the persisted
state to `phase = FIX, complete = false`. -/
theorem validationErrors_revert_to_fix (now : Int) (pid : String) (s : SessionState)
    (mtime : Int) (v : ValidationState) (e : VError) (t : Int)
    (hph : s.phase = .SHIP) (hc : s.complete = true)
    (he : e ∈ v.errors) (ht : e.timestamp = some t) (hrecent : now - 3600000 < t) :
    evalMain now pid
      { emptyStore with
        state := .good s
        stateMtime := mtime
        validationState := .good v } =
      { decision := .blockValidationErrors,
        store := { emptyStore with
          state := .good { s with phase := .FIX, complete := false }
          stateMtime := now
          validationState := .good v },
        costWarning := false } := by
  have hmem : e ∈ v.errors.filter (isRecentError now) :=
    List.mem_filter.mpr ⟨he, by simp [isRecentError, ht]; exact hrecent⟩
  have hne : v.errors.filter (isRecentError now) ≠ [] := List.ne_nil_of_mem hmem
  have hok : checkValidationErrors now (Raw.good v) = false := by
    unfold checkValidationErrors
    cases hfe : v.errors.filter (isRecentError now) with
    | nil => exact absurd hfe hne
    | cons a l => simp [hfe]
  simp [evalMain, emptyStore, checkRlmCosts, evalStateBlock, Raw.toOption, hph, hc,
    evalCompletion, hok, writeState]

/-- Claim C3, witness: the amended theorem applied to a SHIP session with a
validation error recorded one second before the evaluation. -/
theorem validationErrors_revert_to_fix_witness :
    evalMain 100000000000 "w"
      { emptyStore with
        state := .good { phase := .SHIP, iteration := 3, maxIterations := 10,
                         complete := true, lastActivity := 99999999000 }
        stateMtime := 99999999000
        validationState := .good
          { errors := [{ file := some "a.json", message := "invalid JSON",
                         line := none, timestamp := some 99999999000 }]
            filesValidated := 1 } } =
      { decision := .blockValidationErrors,
        store := { emptyStore with
          state := .good { phase := .FIX, iteration := 3, maxIterations := 10,
                           complete := false, lastActivity := 99999999000 }
          stateMtime := 100000000000
          validationState := .good
            { errors := [{ file := some "a.json", message := "invalid JSON",
                           line := none, timestamp := some 99999999000 }]
              filesValidated := 1 } },
        costWarning := false } :=
  validationErrors_revert_to_fix 100000000000 "w"
    { phase := .SHIP, iteration := 3, maxIterations := 10,
      complete := true, lastActivity := 99999999000 } 99999999000
    { errors := [{ file := some "a.json", message := "invalid JSON",
                   line := none, timestamp := some 99999999000 }]
      filesValidated := 1 }
    { file := some "a.json", message := "invalid JSON",
      line := none, timestamp := some 99999999000 } 99999999000
    rfl rfl (by decide) rfl (by decide)

/-! Claim C4 -/

/-- Claim C4, confirmed: an incomplete session (phase outside
COMPLETE/SHIP) whose state record is more than 8 hours old — the hook reads
the state file's mtime, which the store ties to `lastActivity` here — is
allowed to exit even under the iteration limit, with no marker and no other
record present: the decision is ALLOW and the store, iteration counter
included, is unchanged. -/
theorem stale_incomplete_session_allows (now : Int) (pid : String) (s : SessionState)
    (hc : s.complete = false) (h1 : s.phase ≠ .COMPLETE) (h2 : s.phase ≠ .SHIP)
    (hiter : s.iteration < s.maxIterations)
    (hstale : now - s.lastActivity > STALE_THRESHOLD_MS) :
    evalMain now pid { emptyStore with state := .good s, stateMtime := s.lastActivity } =
      { decision := .allow,
        store := { emptyStore with state := .good s, stateMtime := s.lastActivity },
        costWarning := false } ∧
    exitCode Decision.allow = 0 := by
  constructor
  · simp [evalMain, emptyStore, checkRlmCosts, evalStateBlock, Raw.toOption, hc, h1, h2,
      isStateStale, hstale, evalCompletion, checkValidationErrors, evalTasks,
      getPendingTasks, selectCurrent, releaseLock]
  · rfl

/-- Claim C4, witness: the theorem applied to a BUILD session whose
`lastActivity` is 9 hours old, at iteration 2 of 10. -/
theorem stale_incomplete_session_allows_witness :
    evalMain 100000000000 "w"
      { emptyStore with
        state := .good { phase := .BUILD, iteration := 2, maxIterations := 10,
                         complete := false, lastActivity := 99967600000 }
        stateMtime := 99967600000 } =
      { decision := .allow,
        store := { emptyStore with
          state := .good { phase := .BUILD, iteration := 2, maxIterations := 10,
                           complete := false, lastActivity := 99967600000 }
          stateMtime := 99967600000 },
        costWarning := false } ∧
    exitCode Decision.allow = 0 :=
  stale_incomplete_session_allows 100000000000 "w"
    { phase := .BUILD, iteration := 2, maxIterations := 10,
      complete := false, lastActivity := 99967600000 }
    rfl (by decide) (by decide) (by decide) (by decide)

/-! Claim C5 -/

/-- Claim C5, confirmed: a SHIP session marked complete, with all four test
categories run and passed (`allPassed` set, as the derived field requires),
a git record reporting a git repo with the gh CLI present,
`enforcement.requirePR = true` and `pr.created = false`, is reverted to
`phase = REVIEW, complete = false` and blocked with BLOCK(GitIncomplete) —
whatever the CI/merge results and remaining enforcement flags say. -/
theorem gitIncomplete_reverts_to_review (now : Int) (pid : String) (s : SessionState)
    (mtime : Int) (ci : Option CiInfo) (mg : Option MergeInfo) (reqCI reqMG : Option Bool)
    (hph : s.phase = .SHIP) (hc : s.complete = true) :
    evalMain now pid
      { emptyStore with
        state := .good s
        stateMtime := mtime
        testResults := .good trAllPass
        gitResults := .good
          { repository := some ⟨true, true⟩, pr := some ⟨false⟩, ci := ci, merge := mg,
            enforcement := some ⟨some true, reqCI, reqMG⟩ } } =
      { decision := .blockGitIncomplete,
        store := { emptyStore with
          state := .good { s with phase := .REVIEW, complete := false }
          stateMtime := now
          testResults := .good trAllPass
          gitResults := .good
            { repository := some ⟨true, true⟩, pr := some ⟨false⟩, ci := ci, merge := mg,
              enforcement := some ⟨some true, reqCI, reqMG⟩ } },
        costWarning := false } := by
  simp [evalMain, emptyStore, checkRlmCosts, evalStateBlock, Raw.toOption, hph, hc,
    evalCompletion, checkValidationErrors, verifyTestResults, catCheck, trAllPass,
    verifyGitResults, notDisabled, writeState]

/-- Claim C5, witness: the theorem applied with CI passed, merge done and
all enforcement flags on — the missing PR alone forces the revert. -/
theorem gitIncomplete_reverts_to_review_witness :
    evalMain 100000000000 "w"
      { emptyStore with
        state := .good { phase := .SHIP, iteration := 3, maxIterations := 10,
                         complete := true, lastActivity := 99999999000 }
        stateMtime := 99999999000
        testResults := .good trAllPass
        gitResults := .good
          { repository := some ⟨true, true⟩, pr := some ⟨false⟩, ci := some ⟨true, true⟩,
            merge := some ⟨true⟩, enforcement := some ⟨some true, some true, some true⟩ } } =
      { decision := .blockGitIncomplete,
        store := { emptyStore with
          state := .good { phase := .REVIEW, iteration := 3, maxIterations := 10,
                           complete := false, lastActivity := 99999999000 }
          stateMtime := 100000000000
          testResults := .good trAllPass
          gitResults := .good
            { repository := some ⟨true, true⟩, pr := some ⟨false⟩, ci := some ⟨true, true⟩,
              merge := some ⟨true⟩, enforcement := some ⟨some true, some true, some true⟩ } },
        costWarning := false } :=
  gitIncomplete_reverts_to_review 100000000000 "w"
    { phase := .SHIP, iteration := 3, maxIterations := 10,
      complete := true, lastActivity := 99999999000 } 99999999000
    (some ⟨true, true⟩) (some ⟨true⟩) (some true) (some true) rfl rfl

/-! Claim C6 -/

/-- Claim C6, confirmed: whenever the force-exit marker is present the
evaluation returns ALLOW with exit code 0 and consumes exactly that marker,
regardless of every other signal in the store. -/
theorem forceExit_always_allows (now : Int) (pid : String) (st : Store)
    (h : st.forceExit = true) :
    evalMain now pid st =
      { decision := .allow, store := { st with forceExit := false }, costWarning := false } ∧
    exitCode (evalMain now pid st).decision = 0 := by
  simp [evalMain, h, exitCode]

/-- Claim C6, witness: the theorem applied to a store that simultaneously
has failing tests, a fresh validation error, a pending backlog task, an
escalation marker, and a cost record over the hard limit. -/
theorem forceExit_always_allows_witness :
    evalMain 100000000000 "w" nastyStore =
      { decision := .allow, store := { nastyStore with forceExit := false },
        costWarning := false } ∧
    exitCode (evalMain 100000000000 "w" nastyStore).decision = 0 :=
  forceExit_always_allows 100000000000 "w" nastyStore rfl

/-! Claim C7 -/

/-- Claim C7, counterexample: with `t1` the earliest pending task (two
logged failures) and a later task `t2` in progress, the evaluator blocks
naming `t2`, not the earliest task `t1` — the in-progress task is preferred
over the earliest one. -/
theorem backlog_prefers_in_progress :
    (evalMain 100000000000 "w" cxBacklogStore).decision = .blockTasksRemaining "t2" ∧
    (evalMain 100000000000 "w" cxBacklogStore).decision ≠ .blockTasksRemaining "t1" ∧
    ((getPendingTasks 100000000000 cxBacklogStore.tasks.toOption).head?.map PTask.id) =
      some "t1" := by
  refine ⟨?_, ?_, ?_⟩ <;> decide

/-- Claim C7, amended: when pending tasks remain and all earlier gate steps
pass, the evaluator selects the first in-progress pending task, or the
earliest pending task if none is in progress (`selectCurrent`); if the
selected task's failure count is 2 the decision is BLOCK(TasksRemaining)
naming it and nothing is written; once the count reaches 3 the decision is
ESCALATE, the escalation marker is written, and a repeated evaluation
escalates again while leaving the store — hence the single marker —
unchanged. -/
theorem backlog_block_and_escalate (now : Int) (pid : String) (td : TasksData)
    (fl : Failures) (c : PTask) (fr : FailureRecord)
    (hsel : selectCurrent (getPendingTasks now (some td)) = some c)
    (hlk : fl.lookup c.id = some fr) :
    (fr.count = 2 →
      evalMain now pid { emptyStore with tasks := .good td, failures := .good fl } =
        { decision := .blockTasksRemaining c.id,
          store := { emptyStore with tasks := .good td, failures := .good fl },
          costWarning := false }) ∧
    (fr.count ≥ 3 →
      evalMain now pid { emptyStore with tasks := .good td, failures := .good fl } =
        { decision := .escalate c.id,
          store := { emptyStore with
            tasks := .good td
            failures := .good fl
            escalation := .good
              { taskId := c.id
                failures := fr.count
                errors := takeLast 3 fr.errors
                createdAt := now } },
          costWarning := false } ∧
      ∀ (now2 : Int) (pid2 : String),
        evalMain now2 pid2
          { emptyStore with
            tasks := .good td
            failures := .good fl
            escalation := .good
              { taskId := c.id
                failures := fr.count
                errors := takeLast 3 fr.errors
                createdAt := now } } =
        { decision := .escalate c.id,
          store := { emptyStore with
            tasks := .good td
            failures := .good fl
            escalation := .good
              { taskId := c.id
                failures := fr.count
                errors := takeLast 3 fr.errors
                createdAt := now } },
          costWarning := false }) := by
  refine ⟨fun h2 => ?_, fun h3 => ⟨?_, fun now2 pid2 => ?_⟩⟩
  · simp [evalMain, emptyStore, checkRlmCosts, evalStateBlock, Raw.toOption, evalTasks,
      hsel, checkUserEscalation, hlk, h2, MAX_CONSECUTIVE_FAILURES]
  · simp [evalMain, emptyStore, checkRlmCosts, evalStateBlock, Raw.toOption, evalTasks,
      hsel, checkUserEscalation, hlk, MAX_CONSECUTIVE_FAILURES, h3]
  · simp [evalMain, emptyStore]

/-- Claim C7, witness: both branches of the amended theorem at concrete
inputs — a selected task with failure count 2 is blocked by name, and with
count 3 the first evaluation escalates and a second evaluation escalates
again without changing the store. -/
theorem backlog_block_and_escalate_witness :
    evalMain 100000000000 "w"
      { emptyStore with
        tasks := .good { config := none, tasks := [{ id := "t1", content := "first task", status := .pending, createdAt := 99999990000 }] }
        failures := .good [("t1", { count := 2, errors := [], lastFailure := none })] } =
      { decision := .blockTasksRemaining "t1",
        store := { emptyStore with
          tasks := .good { config := none, tasks := [{ id := "t1", content := "first task", status := .pending, createdAt := 99999990000 }] }
          failures := .good [("t1", { count := 2, errors := [], lastFailure := none })] },
        costWarning := false } ∧
    evalMain 100000000000 "w"
      { emptyStore with
        tasks := .good { config := none, tasks := [{ id := "t1", content := "first task", status := .pending, createdAt := 99999990000 }] }
        failures := .good [("t1", { count := 3, errors := [], lastFailure := none })] } =
      { decision := .escalate "t1",
        store := { emptyStore with
          tasks := .good { config := none, tasks := [{ id := "t1", content := "first task", status := .pending, createdAt := 99999990000 }] }
          failures := .good [("t1", { count := 3, errors := [], lastFailure := none })]
          escalation := .good
            { taskId := "t1"
              failures := 3
              errors := takeLast 3 ([] : List FailEntry)
              createdAt := 100000000000 } },
        costWarning := false } :=
  ⟨(backlog_block_and_escalate 100000000000 "w"
      { config := none, tasks := [{ id := "t1", content := "first task", status := .pending, createdAt := 99999990000 }] }
      [("t1", { count := 2, errors := [], lastFailure := none })]
      { id := "t1", content := "first task", status := .pending, createdAt := 99999990000 }
      { count := 2, errors := [], lastFailure := none }
      (by decide) (by decide)).1 rfl,
   ((backlog_block_and_escalate 100000000000 "w"
      { config := none, tasks := [{ id := "t1", content := "first task", status := .pending, createdAt := 99999990000 }] }
      [("t1", { count := 3, errors := [], lastFailure := none })]
      { id := "t1", content := "first task", status := .pending, createdAt := 99999990000 }
      { count := 3, errors := [], lastFailure := none }
      (by decide) (by decide)).2 (by decide)).1⟩

/-! Claim C8 -/

/-- Claim C8, confirmed: with a well-formed cost record present, every
evaluation (markers absent) adds the burst's sub-call count to the
cumulative total, appends the burst to the rolling history — which stays
within 10 entries, is a suffix of the old history plus the new burst, and is
uncapped while the old history has at most 9 entries — and then judges only
the current burst: at or above 50 sub-calls the decision is
BLOCK(CostLimitReached); between 30 and 49 the evaluation only sets the
advisory warning and allows (nothing else being present to block). -/
theorem costGuard_accumulates_and_blocks (now : Int) (pid : String) (ctx : RlmContext)
    (totals : CostTotals) :
    (∃ t : CostTotals,
      (evalMain now pid
        { emptyStore with rlmContext := .good ctx, rlmCosts := .good totals }).store.rlmCosts =
          .good t ∧
      t.total_sub_calls = totals.total_sub_calls + ctx.sub_calls ∧
      t.sessions.length ≤ 10 ∧
      t.sessions <:+ totals.sessions ++
        [{ timestamp := now, sub_calls := ctx.sub_calls,
           cost_estimate := ctx.cost_estimate.getD "unknown" }] ∧
      (totals.sessions.length ≤ 9 →
        t.sessions = totals.sessions ++
          [{ timestamp := now, sub_calls := ctx.sub_calls,
             cost_estimate := ctx.cost_estimate.getD "unknown" }])) ∧
    (ctx.sub_calls ≥ RLM_SUB_CALL_LIMIT →
      (evalMain now pid
        { emptyStore with rlmContext := .good ctx, rlmCosts := .good totals }).decision =
        .blockCostLimit) ∧
    (RLM_SUB_CALL_WARNING ≤ ctx.sub_calls ∧ ctx.sub_calls < RLM_SUB_CALL_LIMIT →
      (evalMain now pid
        { emptyStore with rlmContext := .good ctx, rlmCosts := .good totals }).decision =
        .allow ∧
      (evalMain now pid
        { emptyStore with rlmContext := .good ctx, rlmCosts := .good totals }).costWarning =
        true) := by
  refine ⟨⟨({ total_sub_calls := totals.total_sub_calls + ctx.sub_calls
              sessions :=
                if (totals.sessions ++
                    [({ timestamp := now, sub_calls := ctx.sub_calls,
                        cost_estimate := ctx.cost_estimate.getD "unknown" } : SessionEntry)]).length > 10 then
                  takeLast 10 (totals.sessions ++
                    [({ timestamp := now, sub_calls := ctx.sub_calls,
                        cost_estimate := ctx.cost_estimate.getD "unknown" } : SessionEntry)])
                else totals.sessions ++
                  [({ timestamp := now, sub_calls := ctx.sub_calls,
                      cost_estimate := ctx.cost_estimate.getD "unknown" } : SessionEntry)]
              last_updated := some now } : CostTotals), ?_, rfl, ?_, ?_, ?_⟩, fun h50 => ?_, fun hw => ?_⟩
  · by_cases h50 : ctx.sub_calls ≥ RLM_SUB_CALL_LIMIT
    · simp [evalMain, emptyStore, checkRlmCosts, h50]
    · by_cases h30 : ctx.sub_calls ≥ RLM_SUB_CALL_WARNING
      · simp [evalMain, emptyStore, checkRlmCosts, h50, h30, evalStateBlock, Raw.toOption,
          evalTasks, getPendingTasks, selectCurrent, releaseLock]
      · simp [evalMain, emptyStore, checkRlmCosts, h50, h30, evalStateBlock, Raw.toOption,
          evalTasks, getPendingTasks, selectCurrent, releaseLock]
  · split
    · next hlen =>
      simp only [takeLast, List.length_drop]
      omega
    · next hlen =>
      simp only [Nat.not_lt] at hlen
      exact hlen
  · split
    · exact List.drop_suffix _ _
    · exact List.suffix_refl _
  · intro hlen
    rw [if_neg]
    simp
    omega
  · have hres : (checkRlmCosts now (.good ctx) (.good totals)).1 =
        { blocked := true, warning := false } := by
      simp [checkRlmCosts, h50]
    simp [evalMain, emptyStore, hres]
  · have hres : (checkRlmCosts now (.good ctx) (.good totals)).1 =
        { blocked := false, warning := true } := by
      simp [checkRlmCosts, hw.1, Nat.not_le.mpr hw.2]
    simp [evalMain, emptyStore, hres, evalStateBlock, Raw.toOption, evalTasks,
      getPendingTasks, selectCurrent, releaseLock]

/-- Claim C8, witness: a burst of exactly 50 sub-calls is blocked after the
totals are updated, and a burst of 40 only warns and allows. -/
theorem costGuard_accumulates_and_blocks_witness :
    (∃ t : CostTotals,
      (evalMain 100 "w"
        { emptyStore with
          rlmContext := .good { sub_calls := 50, cost_estimate := none }
          rlmCosts := .good { total_sub_calls := 7, sessions := [], last_updated := none } }).store.rlmCosts =
          .good t ∧
      t.total_sub_calls = 7 + 50 ∧
      t.sessions.length ≤ 10 ∧
      t.sessions <:+ ([] : List SessionEntry) ++
        [{ timestamp := 100, sub_calls := 50, cost_estimate := (none : Option String).getD "unknown" }] ∧
      (([] : List SessionEntry).length ≤ 9 →
        t.sessions = ([] : List SessionEntry) ++
          [{ timestamp := 100, sub_calls := 50, cost_estimate := (none : Option String).getD "unknown" }])) ∧
    (evalMain 100 "w"
      { emptyStore with
        rlmContext := .good { sub_calls := 50, cost_estimate := none }
        rlmCosts := .good { total_sub_calls := 7, sessions := [], last_updated := none } }).decision =
      .blockCostLimit ∧
    (evalMain 100 "w"
      { emptyStore with
        rlmContext := .good { sub_calls := 40, cost_estimate := none }
        rlmCosts := .good { total_sub_calls := 7, sessions := [], last_updated := none } }).decision =
      .allow ∧
    (evalMain 100 "w"
      { emptyStore with
        rlmContext := .good { sub_calls := 40, cost_estimate := none }
        rlmCosts := .good { total_sub_calls := 7, sessions := [], last_updated := none } }).costWarning =
      true :=
  ⟨(costGuard_accumulates_and_blocks 100 "w" { sub_calls := 50, cost_estimate := none }
      { total_sub_calls := 7, sessions := [], last_updated := none }).1,
   (costGuard_accumulates_and_blocks 100 "w" { sub_calls := 50, cost_estimate := none }
      { total_sub_calls := 7, sessions := [], last_updated := none }).2.1 (by decide),
   ((costGuard_accumulates_and_blocks 100 "w" { sub_calls := 40, cost_estimate := none }
      { total_sub_calls := 7, sessions := [], last_updated := none }).2.2
      ⟨by decide, by decide⟩).1,
   ((costGuard_accumulates_and_blocks 100 "w" { sub_calls := 40, cost_estimate := none }
      { total_sub_calls := 7, sessions := [], last_updated := none }).2.2
      ⟨by decide, by decide⟩).2⟩

/-! Claim C9 -/

/-- Claim C9, confirmed: while agent A's lock is younger than the 5-minute
timeout, agent B's acquire fails and reports A's id together with the lock's
age, leaving the record in place; once the lock is older than the timeout,
B's acquire succeeds and overwrites the record with B's id and the current
time; and release deletes the lock exactly when the releasing agent holds
it. -/
theorem lock_timeout_mutual_exclusion (now : Int) (a b : String) (t : Int) :
    ((now - t < LOCK_TIMEOUT_MS →
      acquireLock now b (.good { agentId := a, acquiredAt := t }) =
        ({ acquired := false, holder := some a, age := some (now - t) },
         .good { agentId := a, acquiredAt := t })) ∧
     (now - t > LOCK_TIMEOUT_MS →
      acquireLock now b (.good { agentId := a, acquiredAt := t }) =
        ({ acquired := true, holder := none, age := none },
         .good { agentId := b, acquiredAt := now }))) ∧
    ∀ l : LockData, (releaseLock b (.good l) = .missing ↔ l.agentId = b) := by
  refine ⟨⟨fun h => ?_, fun h => ?_⟩, fun l => ?_⟩
  · simp [acquireLock, h]
  · have hn : ¬ (now - t < LOCK_TIMEOUT_MS) := by omega
    simp [acquireLock, hn]
  · constructor
    · intro h
      by_contra hne
      simp [releaseLock, hne] at h
    · intro h
      simp [releaseLock, h]

/-- Claim C9, witness: a 100-second-old lock held by A repels B; a
400-second-old lock is taken over by B; A's own release deletes A's lock
while B's release of A's lock does not. -/
theorem lock_timeout_mutual_exclusion_witness :
    acquireLock 1000000 "B" (.good { agentId := "A", acquiredAt := 900000 }) =
      ({ acquired := false, holder := some "A", age := some (1000000 - 900000) },
       .good { agentId := "A", acquiredAt := 900000 }) ∧
    acquireLock 1000000 "B" (.good { agentId := "A", acquiredAt := 600000 }) =
      ({ acquired := true, holder := none, age := none },
       .good { agentId := "B", acquiredAt := 1000000 }) ∧
    (releaseLock "B" (.good { agentId := "A", acquiredAt := 5 }) = .missing ↔ "A" = "B") ∧
    (releaseLock "A" (.good { agentId := "A", acquiredAt := 5 }) = .missing ↔ "A" = "A") :=
  ⟨(lock_timeout_mutual_exclusion 1000000 "A" "B" 900000).1.1 (by decide),
   (lock_timeout_mutual_exclusion 1000000 "A" "B" 600000).1.2 (by decide),
   (lock_timeout_mutual_exclusion 1000000 "A" "B" 5).2 { agentId := "A", acquiredAt := 5 },
   (lock_timeout_mutual_exclusion 1000000 "A" "A" 5).2 { agentId := "A", acquiredAt := 5 }⟩

/-! Claim C10 -/

/-- Claim C10, counterexample: an incomplete, non-stale CANCELLED-phase
session with falsy `maxIterations` still increments the persisted iteration
counter but the evaluation returns ALLOW, not BLOCK(ContinuePhase) — the
claim's "every evaluation ... returns BLOCK(ContinuePhase)" fails for the
CANCELLED phase, for which no continue directive exists. -/
theorem falsy_maxIterations_cancelled_allows :
    (evalMain 100000000000 "w" cxCancelledStore).decision = .allow ∧
    (evalMain 100000000000 "w" cxCancelledStore).decision ≠
      .blockContinuePhase Phase.CANCELLED ∧
    (evalMain 100000000000 "w" cxCancelledStore).store.state =
      .good { phase := .CANCELLED, iteration := 1, maxIterations := 0,
              complete := false, lastActivity := 100000000000 } := by
  refine ⟨?_, ?_, ?_⟩ <;> decide

/-- Claim C10, amended: with `maxIterations` equal to the falsy default 0,
the iteration-limit check never reports blocked for any state; an
incomplete, non-stale session in a phase with a continue directive
(PLAN/BUILD/REVIEW/FIX) is re-blocked with BLOCK(ContinuePhase) and its
iteration counter incremented; and `n + 1` consecutive evaluations leave the
persisted counter at `iteration + n + 1`, so BLOCK(IterationLimit) is never
produced and the counter grows without bound. -/
theorem falsy_maxIterations_unbounded (now : Int) (pid : String) (s : SessionState)
    (mtime : Int) (hmax : s.maxIterations = 0) (hc : s.complete = false)
    (hph : s.phase = .PLAN ∨ s.phase = .BUILD ∨ s.phase = .REVIEW ∨ s.phase = .FIX)
    (hstale : now - mtime ≤ STALE_THRESHOLD_MS) :
    (∀ s2 : SessionState, s2.maxIterations = 0 → checkIterationLimit s2 = false) ∧
    evalMain now pid { emptyStore with state := .good s, stateMtime := mtime } =
      { decision := .blockContinuePhase s.phase,
        store := { emptyStore with
          state := .good { s with iteration := s.iteration + 1, lastActivity := now },
          stateMtime := now },
        costWarning := false } ∧
    ∀ n : Nat,
      (evalSteps now pid (n + 1)
          { emptyStore with state := .good s, stateMtime := mtime }).state =
        .good { s with iteration := s.iteration + (n + 1), lastActivity := now } := by
  have h1 : s.phase ≠ Phase.COMPLETE := by rcases hph with h | h | h | h <;> simp [h]
  have h2 : s.phase ≠ Phase.SHIP := by rcases hph with h | h | h | h <;> simp [h]
  have hp : hasPhasePrompt s.phase = true := by
    rcases hph with h | h | h | h <;> simp [h, hasPhasePrompt]
  refine ⟨fun s2 hm2 => by simp [checkIterationLimit, hm2], ?_, fun n => ?_⟩
  · exact continue_step now pid s mtime hc h1 h2 (by simp [checkIterationLimit, hmax]) hp hstale
  · rw [continue_iterates now pid s mtime hc h1 h2 hmax hp hstale n]

/-- Claim C10, witness: a BUILD session with `maxIterations = 0` at
iteration 4 is re-blocked with the BUILD directive, and five consecutive
evaluations bring the persisted counter to 9. -/
theorem falsy_maxIterations_unbounded_witness :
    (∀ s2 : SessionState, s2.maxIterations = 0 → checkIterationLimit s2 = false) ∧
    evalMain 100000000000 "w"
      { emptyStore with
        state := .good { phase := .BUILD, iteration := 4, maxIterations := 0,
                         complete := false, lastActivity := 99999999000 }
        stateMtime := 99999999000 } =
      { decision := .blockContinuePhase Phase.BUILD,
        store := { emptyStore with
          state := .good { phase := .BUILD, iteration := 5, maxIterations := 0,
                           complete := false, lastActivity := 100000000000 },
          stateMtime := 100000000000 },
        costWarning := false } ∧
    ∀ n : Nat,
      (evalSteps 100000000000 "w" (n + 1)
          { emptyStore with
            state := .good { phase := .BUILD, iteration := 4, maxIterations := 0,
                             complete := false, lastActivity := 99999999000 }
            stateMtime := 99999999000 }).state =
        .good { phase := .BUILD, iteration := 4 + (n + 1), maxIterations := 0,
                complete := false, lastActivity := 100000000000 } :=
  falsy_maxIterations_unbounded 100000000000 "w"
    { phase := .BUILD, iteration := 4, maxIterations := 0,
      complete := false, lastActivity := 99999999000 } 99999999000
    rfl rfl (Or.inr (Or.inl rfl)) (by decide)

end FlowGo
